import Mathlib

/-!
Verification development for the apex-trader core: a shallow embedding of
the indicator library (indicators.py), the instrument scorer and market
scanner (scanner.py), the position risk manager (trader.py), the daily
risk governor and orchestration loop (main.py), and the ledger semantics
of database.py, together with theorems settling the specification claims.

Modelling conventions:
* Python float arithmetic is modelled exactly: rational-valued code over ℚ,
  and over ℝ where the source computes a square root (numpy std, pandas
  rolling std), since exact square roots leave ℚ.
* Network and exchange effects (balances, order fills, tickers, prices)
  are passed in explicitly as environment values; a failed call is `none`,
  mirroring the source, which catches the exception and returns a
  sentinel (None, [] or 0).
* pandas NaN propagation (rolling windows shorter than the window size,
  and 0/0) is modelled with `Option`: `none` is NaN.
* Where the source compares a standard deviation only against constant
  thresholds, the embedding carries the square of the value and compares
  against squared thresholds, which is equivalent because both sides are
  nonnegative; each such encoding is derived in a comment at the
  definition.
-/

/-! ### Configuration (config.py, default values) -/

def TAKE_PROFIT_PERCENT : ℚ := 1/2
def STOP_LOSS_PERCENT : ℚ := 3/10
def MAX_TRADE_DURATION : ℚ := 1800
def CAPITAL_PER_TRADE : ℚ := 95/100
def MAX_DAILY_LOSS_PERCENT : ℚ := 2
def MAX_CONSECUTIVE_LOSSES : ℕ := 3
def MAX_TRADES_PER_DAY : ℕ := 20
def MIN_SCORE_TO_TRADE : ℚ := 7
def TOP_N_COINS : ℕ := 100
def RSI_PERIOD : ℕ := 14
def MACD_FAST : ℕ := 12
def MACD_SLOW : ℕ := 26
def MACD_SIGNAL : ℕ := 9
def BB_PERIOD : ℕ := 20
def BB_STD : ℚ := 2

/-- Scoring weight table (config.py, COIN SELECTION WEIGHTS). The five
weights are independent environment variables; `defaultWeights` holds the
documented defaults. -/
structure Weights where
  volatility : ℚ
  volume : ℚ
  momentum : ℚ
  technical : ℚ
  risk : ℚ

def defaultWeights : Weights := ⟨3/10, 25/100, 25/100, 15/100, 5/100⟩

def Weights.sumW (w : Weights) : ℚ :=
  w.volatility + w.volume + w.momentum + w.technical + w.risk

/-- The weight-sum clause of config.validate_config (lines 110-113):
startup rejects the table iff abs(sum - 1.0) > 0.01. -/
def weightsAccepted (w : Weights) : Bool :=
  decide (|w.sumW - 1| ≤ 1/100)

/-! ### Generic list numerics

Helpers shared by the ℚ pipeline and the ℝ (square-root) functions. -/

/-- Python slice prices[-n:]. -/
def lastN {α : Type} (n : ℕ) (l : List α) : List α :=
  l.drop (l.length - n)

/-- numpy mean. -/
def listMean {α : Type} [DivisionRing α] (l : List α) : α :=
  l.sum / (l.length : α)

/-- numpy diff: successive differences b - a. -/
def absDiffs {α : Type} [Ring α] (l : List α) : List α :=
  l.zipWith (fun a b => b - a) l.tail

/-- numpy diff(prices) / prices[:-1]: successive relative changes. -/
def relDiffs {α : Type} [DivisionRing α] (l : List α) : List α :=
  l.zipWith (fun a b => (b - a) / a) l.tail

/-- numpy population variance (std squared, ddof = 0). -/
def listVarPop {α : Type} [Field α] (l : List α) : α :=
  listMean (l.map (fun x => (x - listMean l)^2))

/-- pandas sample variance (rolling std squared, ddof = 1). -/
def listVarSamp {α : Type} [Field α] (l : List α) : α :=
  (l.map (fun x => (x - listMean l)^2)).sum / ((l.length : α) - 1)

/-- Minimum of a list (the windows it is applied to are nonempty). -/
def listMin : List ℚ → ℚ
  | [] => 0
  | x :: xs => xs.foldl min x

/-- Maximum of a list (the windows it is applied to are nonempty). -/
def listMax : List ℚ → ℚ
  | [] => 0
  | x :: xs => xs.foldl max x

/-- pandas ewm(span, adjust=False).mean() recurrence after the seed:
e = (1-a)*e + a*p. -/
def ewmAux (a e : ℚ) : List ℚ → List ℚ
  | [] => []
  | p :: ps =>
    let e2 := (1 - a) * e + a * p
    e2 :: ewmAux a e2 ps

/-- pandas Series.ewm(span, adjust=False).mean(): first element is the
first price, then the recurrence. -/
def ewmList (a : ℚ) : List ℚ → List ℚ
  | [] => []
  | p :: ps => p :: ewmAux a p ps

/-- ewm with pandas span parameter: alpha = 2/(span+1). -/
def ewmSpan (span : ℕ) (l : List ℚ) : List ℚ :=
  ewmList (2 / ((span : ℚ) + 1)) l

/-- pandas rolling(w) aggregate over a NaN-free series: NaN (`none`)
until the window is full, then the aggregate of the last w elements. -/
def rollingAgg (w : ℕ) (f : List ℚ → ℚ) (l : List ℚ) : List (Option ℚ) :=
  (List.range l.length).map (fun i =>
    if i + 1 < w then none else some (f ((l.take (i + 1)).drop (i + 1 - w))))

/-- pandas rolling(w).mean() over a series that may contain NaN
(`none`): NaN until the window is full or while the window contains a
NaN. -/
def rollingMeanOpt (w : ℕ) (l : List (Option ℚ)) : List (Option ℚ) :=
  (List.range l.length).map (fun i =>
    if i + 1 < w then none else
    let win := (l.take (i + 1)).drop (i + 1 - w)
    if win.all Option.isSome then some (listMean (win.filterMap id)) else none)

/-! ### Indicators (indicators.py), rational-valued part -/

/-- Indicators.calculate_rsi (lines 14-36). -/
def calculate_rsi (prices : List ℚ) (period : ℕ) : ℚ :=
  if prices.length < period + 1 then 50 else
  let deltas := absDiffs prices
  let gains := deltas.map (fun d => if d > 0 then d else 0)
  let losses := deltas.map (fun d => if d < 0 then -d else 0)
  let avg_gain := listMean (lastN period gains)
  let avg_loss := listMean (lastN period losses)
  if avg_loss = 0 then 100 else
  let rs := avg_gain / avg_loss
  100 - 100 / (1 + rs)

structure MACDResult where
  macd : ℚ
  signalLine : ℚ
  histogram : ℚ
  crossover : Bool
deriving DecidableEq

/-- The macd, signal and histogram series of Indicators.calculate_macd
(lines 44-51). -/
def macdLines (prices : List ℚ) : List ℚ × List ℚ × List ℚ :=
  let ema_fast := ewmSpan MACD_FAST prices
  let ema_slow := ewmSpan MACD_SLOW prices
  let macd_line := ema_fast.zipWith (fun a b => a - b) ema_slow
  let signal_line := ewmSpan MACD_SIGNAL macd_line
  let histogram := macd_line.zipWith (fun a b => a - b) signal_line
  (macd_line, signal_line, histogram)

/-- Indicators.calculate_macd (lines 38-63). The crossover flag (lines
53-56) is hist[-2] < 0 and hist[-1] > 0, both strict. -/
def calculate_macd (prices : List ℚ) : MACDResult :=
  if prices.length < MACD_SLOW then ⟨0, 0, 0, false⟩ else
  let lines := macdLines prices
  let h := lines.2.2
  let crossover :=
    if 2 ≤ h.length then
      decide (h.getD (h.length - 2) 0 < 0) && decide (0 < h.getD (h.length - 1) 0)
    else false
  ⟨(lines.1.getLast?.getD 0), (lines.2.1.getLast?.getD 0), (h.getLast?.getD 0), crossover⟩

/-- Indicators.calculate_momentum (lines 112-126): percent change over
each period, 0 when the series is not longer than the period. The source
returns a dict keyed by period; order is preserved here. -/
def calculate_momentum (prices : List ℚ) (periods : List ℕ) : List ℚ :=
  periods.map (fun per =>
    if per < prices.length then
      let old := prices.getD (prices.length - per) 0
      (prices.getLast?.getD 0 - old) / old * 100
    else 0)

/-- Indicators.calculate_stoch_rsi (lines 128-164) with the default
parameters period=14, k_period=3, d_period=3. pandas NaN is `none`;
the stochastic value is NaN when the rolling min/max window is not yet
full or when max = min (the numerator rsi - min is then 0, and pandas
0/0 is NaN). -/
def calculate_stoch_rsi (prices : List ℚ) : ℚ × ℚ :=
  if prices.length < 14 + 1 then (50, 50) else
  let lookback := min (14 + 3 + 3 + 10) prices.length
  let rsi_values := (List.range (lookback - 14)).filterMap (fun i =>
    let slice := lastN (lookback - i) prices
    if 14 < slice.length then some (calculate_rsi slice 14) else none)
  if rsi_values = [] then (50, 50) else
  let mins := rollingAgg 14 listMin rsi_values
  let maxs := rollingAgg 14 listMax rsi_values
  let stoch := (List.range rsi_values.length).map (fun i =>
    match mins.getD i none, maxs.getD i none with
    | some mn, some mx =>
      if mx - mn = 0 then none
      else some ((rsi_values.getD i 0 - mn) / (mx - mn) * 100)
    | _, _ => none)
  let k := rollingMeanOpt 3 stoch
  let d := rollingMeanOpt 3 k
  ((k.getLast?.getD none).getD 50, (d.getLast?.getD none).getD 50)

/-- Indicators.calculate_ema (lines 166-172). -/
def calculate_ema (prices : List ℚ) (period : ℕ) : ℚ :=
  if prices.length < period then prices.getLast?.getD 0
  else (ewmSpan period prices).getLast?.getD 0

/-- Indicators.calculate_atr (lines 174-194). The final value is
rolling(period).mean().iloc[-1] of the true-range series; when that
window is not full the source maps the resulting NaN to 0. -/
def calculate_atr (highs lows closes : List ℚ) (period : ℕ) : ℚ :=
  if closes.length < period + 1 then 0 else
  let tr1 := (highs.drop 1).zipWith (fun h l => h - l) (lows.drop 1)
  let tr2 := (highs.drop 1).zipWith (fun h c => |h - c|) closes.dropLast
  let tr3 := (lows.drop 1).zipWith (fun l c => |l - c|) closes.dropLast
  let tr := (tr1.zipWith max (tr2.zipWith max tr3))
  if tr.length < period then 0 else listMean (lastN period tr)

/-! ### Indicators, real-valued part (square roots) -/

/-- Indicators.calculate_volatility (lines 100-110): population standard
deviation of the relative changes of the last `period` prices, as a
percentage. Real-valued because of the square root. -/
noncomputable def calculate_volatility (prices : List ℝ) (period : ℕ) : ℝ :=
  if prices.length < 2 then 0
  else Real.sqrt (listVarPop (relDiffs (lastN period prices))) * 100

/-- The square of calculate_volatility with period 60, stated over ℚ:
(std*100)^2 = variance*10000. The scanner compares the volatility only
against the constant thresholds 3, 2, 1, 0.5, and x ≥ t is equivalent to
x^2 ≥ t^2 for x, t ≥ 0, so the squared value decides the same branches. -/
def volatilitySq60 (prices : List ℚ) : ℚ :=
  if prices.length < 2 then 0
  else listVarPop (relDiffs (lastN 60 prices)) * 10000

structure BBands where
  upper : ℝ
  middle : ℝ
  lower : ℝ
  position : ℝ

/-- Indicators.calculate_bollinger_bands (lines 66-98). On a series
shorter than BB_PERIOD the source reads prices[-1]; on the empty series
that raises IndexError, modelled as `none`. The long branch takes the
last value of the rolling(20) mean and (sample) std. -/
noncomputable def calculate_bollinger_bands (prices : List ℝ) : Option BBands :=
  if prices.length < BB_PERIOD then
    match prices.getLast? with
    | none => none
    | some current_price =>
      some ⟨current_price * (102/100), current_price, current_price * (98/100), 1/2⟩
  else
    let middle := listMean (lastN BB_PERIOD prices)
    let std := Real.sqrt (listVarSamp (lastN BB_PERIOD prices))
    let upper := middle + std * (BB_STD : ℚ)
    let lower := middle - std * (BB_STD : ℚ)
    let current_price := prices.getLast?.getD 0
    let band_width := upper - lower
    some ⟨upper, middle, lower,
        if 0 < band_width then (current_price - lower) / band_width else 1/2⟩

/-! ### Bollinger threshold tests over ℚ

get_technical_score compares bb position only against 0.1, 0.3 and 0.9.
With m the rolling mean, v the sample variance and s = sqrt v of the last
20 prices, p the last price: position = (p - (m - 2s)) / (4s) when
4s > 0, else 0.5. For a threshold t < 1/2:
  position < t  iff  s > 0 and p - m < (4t - 2)s
                iff  v > 0 and m - p > (2 - 4t)s
                iff  v > 0 and m - p > 0 and (m - p)^2 > (2 - 4t)^2 v,
and position > 0.9 iff v > 0 and p - m > 0 and (p - m)^2 > (8/5)^2 v
(0.9 gives 4t - 2 = 8/5; t = 0.1 gives 2 - 4t = 8/5; t = 0.3 gives
2 - 4t = 4/5). When v = 0 the position is the constant 0.5 and all three
tests are false. -/

def bbMeanDev (prices : List ℚ) : ℚ :=
  listMean (lastN BB_PERIOD prices) - prices.getLast?.getD 0

def bbVarSamp20 (prices : List ℚ) : ℚ :=
  listVarSamp (lastN BB_PERIOD prices)

/-- bb position < 0.1 (see the block comment above). -/
def bbPosBelow01 (prices : List ℚ) : Bool :=
  decide (0 < bbVarSamp20 prices) && decide (0 < bbMeanDev prices) &&
    decide ((8/5)^2 * bbVarSamp20 prices < (bbMeanDev prices)^2)

/-- bb position < 0.3 (see the block comment above). -/
def bbPosBelow03 (prices : List ℚ) : Bool :=
  decide (0 < bbVarSamp20 prices) && decide (0 < bbMeanDev prices) &&
    decide ((4/5)^2 * bbVarSamp20 prices < (bbMeanDev prices)^2)

/-- bb position > 0.9 (see the block comment above). -/
def bbPosAbove09 (prices : List ℚ) : Bool :=
  decide (0 < bbVarSamp20 prices) && decide (0 < -bbMeanDev prices) &&
    decide ((8/5)^2 * bbVarSamp20 prices < (bbMeanDev prices)^2)

/-! ### Technical score (indicators.py get_technical_score, lines 196-282) -/

inductive Trend | BULLISH | BEARISH | NEUTRAL
deriving DecidableEq

structure TechBreakdown where
  rsi_score : ℚ
  stoch_score : ℚ
  macd_score : ℚ
  bb_score : ℚ
  trend_score : ℚ
deriving DecidableEq

/-- Result of get_technical_score: the weighted score, plus the
breakdown on the long branch (the short branch returns only the score
and an empty signals dict; the signals dict is observability output and
is not modelled). -/
structure TechResult where
  score : ℚ
  breakdown : Option TechBreakdown
deriving DecidableEq

/-- Score block 1 of get_technical_score (lines 232-237): RSI reversal
logic. -/
def rsi_score_of (rsi : ℚ) : ℚ :=
  if rsi < 30 then 9 else if rsi < 40 then 7
  else if rsi > 70 then 2 else if rsi > 60 then 4 else 5

/-- Score block 2 (lines 239-243): stochastic RSI. -/
def stoch_score_of (k d : ℚ) : ℚ :=
  if k < 20 ∧ d < k then 10
  else if k < 20 then 8 else if k > 80 then 2 else 5

/-- Score block 3 (lines 245-249): MACD. -/
def macd_score_of (macd : MACDResult) : ℚ :=
  if macd.crossover then 10
  else if macd.histogram > 0 then 7 else if macd.histogram < 0 then 3 else 5

/-- Score block 4 (lines 251-255): Bollinger position buckets. -/
def bb_score_of (prices : List ℚ) : ℚ :=
  if bbPosBelow01 prices then 10
  else if bbPosBelow03 prices then 8 else if bbPosAbove09 prices then 2 else 5

/-- Score block 5 (lines 257-260): trend. -/
def trend_score_of (trend : Trend) (current_price ema_50 : ℚ) : ℚ :=
  if trend = .BULLISH ∧ current_price > ema_50 then 8
  else if trend = .BEARISH then 3 else 5

/-- Indicators.get_technical_score (lines 196-282). -/
def get_technical_score (prices : List ℚ) : TechResult :=
  if prices.length < 50 then ⟨5, none⟩ else
  let rsi := calculate_rsi prices RSI_PERIOD
  let stoch := calculate_stoch_rsi prices
  let macd := calculate_macd prices
  let ema_50 := calculate_ema prices 50
  let ema_200 := calculate_ema prices 200
  let trend : Trend :=
    if ema_50 > ema_200 then .BULLISH
    else if ema_50 < ema_200 then .BEARISH else .NEUTRAL
  let current_price := prices.getLast?.getD 0
  let rsi_score := rsi_score_of rsi
  let stoch_score := stoch_score_of stoch.1 stoch.2
  let macd_score := macd_score_of macd
  let bb_score := bb_score_of prices
  let trend_score := trend_score_of trend current_price ema_50
  let total_score :=
    rsi_score * (20/100) + stoch_score * (20/100) + macd_score * (25/100) +
      bb_score * (15/100) + trend_score * (20/100)
  ⟨total_score, some ⟨rsi_score, stoch_score, macd_score, bb_score, trend_score⟩⟩

/-! ### Scanner scores (scanner.py) -/

/-- 24h statistics (scanner.py get_24h_stats). Only quote_volume feeds
any score; the other fields are display output and are not modelled.
An empty dict (fetch failure) is `none` at the use sites. -/
structure Stats24h where
  quote_volume : ℚ
deriving DecidableEq

/-- CoinScanner.calculate_volatility_score (lines 113-136), with the
volatility compared in squared form (thresholds 3, 2, 1, 0.5 become 9,
4, 1, 1/4; see volatilitySq60). -/
def calculate_volatility_score (prices : List ℚ) : ℚ :=
  if prices.length < 2 then 0 else
  let vsq := volatilitySq60 prices
  if vsq ≥ 9 then 10 else if vsq ≥ 4 then 8
  else if vsq ≥ 1 then 6 else if vsq ≥ 1/4 then 4 else 2

/-- CoinScanner.calculate_volume_score (lines 138-163). -/
def calculate_volume_score (stats : Option Stats24h) : ℚ :=
  match stats with
  | none => 5
  | some st =>
    if st.quote_volume ≥ 100000000 then 10
    else if st.quote_volume ≥ 50000000 then 8
    else if st.quote_volume ≥ 10000000 then 6
    else if st.quote_volume ≥ 1000000 then 4 else 2

/-- CoinScanner.calculate_momentum_score (lines 165-191). -/
def calculate_momentum_score (prices : List ℚ) : ℚ :=
  if prices.length < 60 then 5 else
  let momentum := calculate_momentum prices [15, 60, 240]
  let positive_count := momentum.countP (fun v => decide (0 < v))
  let total_count := momentum.length
  let avg_momentum := if 0 < total_count then momentum.sum / (total_count : ℚ) else 0
  if positive_count = total_count ∧ avg_momentum > 1 then 10
  else if positive_count = total_count then 8
  else if (positive_count : ℚ) ≥ (total_count : ℚ) / 2 then 6
  else if avg_momentum < -1 then 3 else 4

/-- CoinScanner.calculate_technical_score (lines 193-196). -/
def calculate_technical_score (prices : List ℚ) : ℚ :=
  (get_technical_score prices).score

def major_coins : List String :=
  ["BTCUSDT", "ETHUSDT", "BNBUSDT", "SOLUSDT", "XRPUSDT", "ADAUSDT"]

/-- CoinScanner.calculate_risk_score (lines 198-220). -/
def calculate_risk_score (symbol : String) (stats : Option Stats24h) : ℚ :=
  let volume := (stats.map Stats24h.quote_volume).getD 0
  let score : ℚ := 5
  let score :=
    if volume ≥ 50000000 then score + 3
    else if volume ≥ 10000000 then score + 2
    else if volume ≥ 1000000 then score + 1 else score - 2
  let score := if symbol ∈ major_coins then score + 2 else score
  min score 10

structure SubScores where
  volatility : ℚ
  volume : ℚ
  momentum : ℚ
  technical : ℚ
  risk : ℚ
deriving DecidableEq

/-- Scored instrument (the dict returned by scan_coin; the stats field
is carried only as the volume number used by scoring). -/
structure Coin where
  symbol : String
  current_price : ℚ
  final_score : ℚ
  scores : SubScores
  price_history : List ℚ
deriving DecidableEq

/-- The weighted final score of scan_coin (lines 244-250). -/
def composite_score (w : Weights) (symbol : String) (prices : List ℚ)
    (stats : Option Stats24h) : ℚ :=
  calculate_volatility_score prices * w.volatility +
    calculate_volume_score stats * w.volume +
    calculate_momentum_score prices * w.momentum +
    calculate_technical_score prices * w.technical +
    calculate_risk_score symbol stats * w.risk

/-- CoinScanner.scan_coin (lines 222-269), with the fetched data passed
in: `prices` is get_price_history (a failed fetch is the empty list) and
`stats` is get_24h_stats (a failed fetch is `none`). The weight table is
a parameter because the five weights come from the environment. -/
def scan_coin (w : Weights) (symbol : String) (prices : List ℚ)
    (stats : Option Stats24h) : Option Coin :=
  if prices = [] ∨ prices.length < 60 then none else
  match stats with
  | none => none
  | some st =>
    some ⟨symbol, prices.getLast?.getD 0, composite_score w symbol prices (some st),
      ⟨calculate_volatility_score prices, calculate_volume_score (some st),
        calculate_momentum_score prices, calculate_technical_score prices,
        calculate_risk_score symbol (some st)⟩,
      lastN 60 prices⟩

/-! ### Scanner pipeline (scanner.py get_top_coins, scan_all_coins,
get_best_opportunity) -/

structure Ticker where
  symbol : String
  quoteVolume : ℚ

/-- Python substring containment x in s. -/
def strContains (s pat : String) : Bool :=
  s.toList.tails.any (fun t => pat.toList.isPrefixOf t)

/-- CoinScanner.get_top_coins (lines 31-56): `tickers` is the
get_ticker result, `none` when the call raises (the source then returns
[]). USDT pairs without leveraged-token markers, sorted by quote volume
descending (python sort is stable; mergeSort is stable), top `limit`. -/
def get_top_coins (tickers : Option (List Ticker)) (limit : ℕ) : List String :=
  match tickers with
  | none => []
  | some ts =>
    let usdt_pairs := ts.filter (fun t =>
      t.symbol.endsWith "USDT" &&
        !(["UP", "DOWN", "BULL", "BEAR"].any (fun x => strContains t.symbol x)))
    let sorted := usdt_pairs.mergeSort (fun a b => decide (b.quoteVolume ≤ a.quoteVolume))
    (sorted.take limit).map Ticker.symbol

/-- The sort key of scan_all_coins line 294: final score descending. -/
def scoreDesc (a b : Coin) : Bool :=
  decide (b.final_score ≤ a.final_score)

/-- CoinScanner.scan_all_coins (lines 271-296): scan every top coin with
the per-symbol fetched data, keep the successful scans, sort by final
score descending (stable). -/
def scan_all_coins (w : Weights) (tickers : Option (List Ticker))
    (envPrices : String → List ℚ) (envStats : String → Option Stats24h) : List Coin :=
  let top_coins := get_top_coins tickers TOP_N_COINS
  if top_coins = [] then [] else
  let results := top_coins.filterMap (fun s => scan_coin w s (envPrices s) (envStats s))
  results.mergeSort scoreDesc

/-- CoinScanner.get_best_opportunity (lines 298-313). -/
def get_best_opportunity (w : Weights) (tickers : Option (List Ticker))
    (envPrices : String → List ℚ) (envStats : String → Option Stats24h) : Option Coin :=
  match scan_all_coins w tickers envPrices envStats with
  | [] => none
  | best :: _ =>
    if best.final_score < MIN_SCORE_TO_TRADE then none else some best

/-! ### Trader (trader.py) and ledger (database.py)

Real-valued because enter_trade computes its stop/target through
calculate_volatility (a square root). Exchange interactions are
environment values: a `none` order is a failed API call (the source
catches the exception, logs and returns None). -/

/-- A filled order as the source reads it: order get price and
order get executedQty (the dry-run simulator and the live path both
supply these fields). -/
structure ExchangeOrder where
  price : ℝ
  executedQty : ℝ

inductive TradeStatus | OPEN | CLOSED
deriving DecidableEq

/-- One row of the trades table (database.py); the fields the core
reads back. Exit fields are null until the row is closed. Timestamps
are strictly increasing with insertion order, so ORDER BY timestamp
DESC LIMIT 1 is the last appended row. -/
structure TradeRec where
  id : ℕ
  symbol : String
  entry_price : ℝ
  quantity : ℝ
  status : TradeStatus
  exit_price : Option ℝ
  profit_percent : Option ℝ
  exit_reason : Option String
  score : ℝ

/-- Database.log_trade_entry (lines 77-108): append an OPEN row with the
next auto id; returns the new ledger and the id. -/
def log_trade_entry (ledger : List TradeRec) (symbol : String)
    (entry_price quantity score : ℝ) : List TradeRec × ℕ :=
  let trade_id := ledger.length + 1
  (ledger ++ [⟨trade_id, symbol, entry_price, quantity, .OPEN, none, none, none, score⟩],
    trade_id)

/-- Database.log_trade_exit (lines 110-164): update the row with the
given id in place, computing the profit from the stored entry price. -/
noncomputable def log_trade_exit (ledger : List TradeRec) (trade_id : ℕ)
    (exit_price : ℝ) (exit_reason : String) : List TradeRec :=
  ledger.map (fun r =>
    if r.id = trade_id then
      { r with
        status := .CLOSED
        exit_price := some exit_price
        profit_percent := some ((exit_price - r.entry_price) / r.entry_price * 100)
        exit_reason := some exit_reason }
    else r)

/-- The open Position owned by the trader (the current_position dict of
trader.py, lines 243-251). -/
structure Position where
  trade_id : ℕ
  symbol : String
  entry_price : ℝ
  quantity : ℝ
  score : ℝ
  tp_price : ℝ
  sl_price : ℝ

/-- The mutable state of Trader (trader.py __init__, lines 33-41) plus
the ledger it writes through self.db. -/
structure TraderState where
  current_position : Option Position
  entry_time : Option ℝ
  initial_stop_loss : ℝ
  initial_take_profit : ℝ
  trailing_stop_active : Bool
  highest_price : ℝ
  ledger : List TradeRec

/-- Python round half-to-even of a real to an integer. -/
noncomputable def roundHalfEven (x : ℝ) : ℤ :=
  let f := ⌊x⌋
  if x - f < 1/2 then f
  else if x - f > 1/2 then f + 1
  else if f % 2 = 0 then f else f + 1

/-- Python round(x, n). -/
noncomputable def pyRound (x : ℝ) (n : ℕ) : ℝ :=
  (roundHalfEven (x * 10 ^ n) : ℝ) / 10 ^ n

/-- Trader.calculate_quantity (lines 56-82) on the dry-run step size
0.00001, i.e. precision 5 (live precision comes from the symbol filter;
the claims do not depend on the precision value). -/
noncomputable def calculate_quantity (price capital : ℝ) : ℝ :=
  pyRound (capital / price) 5

/-- Trader.calculate_atr_targets, dynamic branch (lines 161-174):
(take profit, stop loss) from the entry and the ATR approximation. -/
noncomputable def atrTargetsFromAtr (entry_price atr : ℝ) : ℝ × ℝ :=
  let sl_price := entry_price - 2 * atr
  let tp_price := entry_price + 3 * atr
  let min_sl := entry_price * (98/100)
  let max_sl := entry_price * (997/1000)
  (tp_price, max min_sl (min sl_price max_sl))

/-- The ATR approximation of Trader.calculate_atr_targets (lines
154-159): entry price times the volatility of the price history as a
decimal (calculate_volatility has default period 20). -/
noncomputable def atrApprox (entry_price : ℝ) (price_history : List ℝ) : ℝ :=
  entry_price * (calculate_volatility price_history 20 / 100)

/-- Trader.calculate_atr_targets (lines 146-174): fixed-percentage
fallback when the history is shorter than 20, else ATR-dynamic. -/
noncomputable def calculate_atr_targets (entry_price : ℝ)
    (price_history : List ℝ) : ℝ × ℝ :=
  if price_history = [] ∨ price_history.length < 20 then
    (entry_price * (1 + (TAKE_PROFIT_PERCENT : ℝ) / 100),
      entry_price * (1 - (STOP_LOSS_PERCENT : ℝ) / 100))
  else
    atrTargetsFromAtr entry_price (atrApprox entry_price price_history)

/-- The opportunity dict as enter_trade reads it (symbol, current_price,
final_score, price_history; the scores breakdown is only logged). -/
structure Opportunity where
  symbol : String
  current_price : ℝ
  final_score : ℝ
  price_history : List ℝ

/-- Environment of one enter_trade call: the USDT balance returned by
get_account_balance, the result of place_market_buy (`none` = order
failed), and the current wall-clock time (datetime.now()). -/
structure EnterEnv where
  balance : ℝ
  buyOrder : Option ExchangeOrder
  now : ℝ

/-- Trader.enter_trade (lines 176-254). Rejections (insufficient
capital, zero quantity, failed buy order) return the state unchanged
with False. On success: dynamic targets, fresh risk state, ledger entry,
new Position, entry time. -/
noncomputable def enter_trade (s : TraderState) (opp : Opportunity)
    (env : EnterEnv) : TraderState × Bool :=
  let capital_to_use := env.balance * (CAPITAL_PER_TRADE : ℝ)
  if capital_to_use < 10 then (s, false) else
  let quantity := calculate_quantity opp.current_price capital_to_use
  if quantity = 0 then (s, false) else
  match env.buyOrder with
  | none => (s, false)
  | some order =>
    let fill_price := order.price
    let fill_quantity := order.executedQty
    let targets := calculate_atr_targets fill_price opp.price_history
    let logged := log_trade_entry s.ledger opp.symbol fill_price fill_quantity opp.final_score
    ({ current_position := some ⟨logged.2, opp.symbol, fill_price, fill_quantity,
          opp.final_score, targets.1, targets.2⟩
       entry_time := some env.now
       initial_stop_loss := targets.2
       initial_take_profit := targets.1
       trailing_stop_active := false
       highest_price := fill_price
       ledger := logged.1 }, true)

/-- Environment of one exit_trade call: the result of place_market_sell
(`none` = order failed). -/
structure ExitEnv where
  sellOrder : Option ExchangeOrder

/-- Trader.exit_trade (lines 324-368). A failed sell order returns the
state unchanged with False (lines 337-339, before any ledger write or
state change). On success: ledger exit row, position and risk state
cleared. -/
noncomputable def exit_trade (s : TraderState) (reason : String)
    (env : ExitEnv) : TraderState × Bool :=
  match s.current_position with
  | none => (s, false)
  | some pos =>
    match env.sellOrder with
    | none => (s, false)
    | some order =>
      let exit_price := order.price
      ({ current_position := none
         entry_time := none
         initial_stop_loss := s.initial_stop_loss
         initial_take_profit := s.initial_take_profit
         trailing_stop_active := false
         highest_price := 0
         ledger := log_trade_exit s.ledger pos.trade_id exit_price reason }, true)

/-- Environment of one monitor_position tick: the get_current_price
result (`none` = fetch failed), the wall clock, and the sell-order
outcome should this tick exit. -/
structure TickEnv where
  price : Option ℝ
  now : ℝ
  exitEnv : ExitEnv

/-- The high-water-mark update of monitor_position (lines 271-273). -/
noncomputable def tickHighest (s : TraderState) (current_price : ℝ) : ℝ :=
  if current_price > s.highest_price then current_price else s.highest_price

/-- Unrealized profit percent (line 276). -/
noncomputable def tickProfitPercent (entry_price current_price : ℝ) : ℝ :=
  (current_price - entry_price) / entry_price * 100

/-- The effective stop level a monitor tick compares the price against
(lines 279-289): the local stop_loss_price starts from
initial_stop_loss every tick and is raised to highest*0.995 only when
this tick has profit > 1 percent and that value is higher. Nothing of
the raised value is stored back into the trader state. -/
noncomputable def tickEffectiveStop (s : TraderState) (entry_price current_price : ℝ) : ℝ :=
  if tickProfitPercent entry_price current_price > 1 ∧
      tickHighest s current_price * (995/1000) > s.initial_stop_loss then
    tickHighest s current_price * (995/1000)
  else s.initial_stop_loss

/-- Trader.monitor_position (lines 256-322). Returns the new state and
the continue flag the source returns (True = keep monitoring; the
orchestration loop ignores it). -/
noncomputable def monitor_position (s : TraderState) (env : TickEnv) : TraderState × Bool :=
  match s.current_position with
  | none => (s, false)
  | some pos =>
    match env.price with
    | none => (s, true)
    | some current_price =>
      let s1 := { s with highest_price := tickHighest s current_price }
      let profit_percent := tickProfitPercent pos.entry_price current_price
      let take_profit_price := s.initial_take_profit
      let stop_loss_price := tickEffectiveStop s pos.entry_price current_price
      let s2 := { s1 with trailing_stop_active :=
        if profit_percent > 1 then true else s1.trailing_stop_active }
      let time_in_trade := env.now - s.entry_time.getD 0
      if current_price ≥ take_profit_price then
        exit_trade s2 "TAKE_PROFIT_DYNAMIC" env.exitEnv
      else if current_price ≤ stop_loss_price then
        exit_trade s2
          (if s2.trailing_stop_active then "TRAILING_STOP" else "STOP_LOSS_DYNAMIC")
          env.exitEnv
      else if time_in_trade ≥ (MAX_TRADE_DURATION : ℝ) then
        exit_trade s2 "MAX_DURATION" env.exitEnv
      else (s2, true)

/-! ### Orchestration loop (main.py) -/

/-- The in-memory stats dict of ApexTrader (main.py lines 24-29; the
start_balance field is display only). -/
structure BotStats where
  trades_today : ℕ
  consecutive_losses : ℕ
  daily_pnl : ℝ

structure BotState where
  trader : TraderState
  stats : BotStats

/-- The CLOSED rows of the trades table. The run is modelled within one
calendar day, so the daily aggregates (performance table, recomputed
from CLOSED rows on every close) are derived directly from the ledger. -/
noncomputable def closedTrades (ledger : List TradeRec) : List TradeRec :=
  ledger.filter (fun r => r.status = .CLOSED)

/-- Database.get_daily_stats total_trades (today). -/
noncomputable def dailyTotalTrades (ledger : List TradeRec) : ℕ :=
  (closedTrades ledger).length

/-- Database.get_daily_stats total_profit_percent (today). -/
noncomputable def dailyPnl (ledger : List TradeRec) : ℝ :=
  ((closedTrades ledger).filterMap TradeRec.profit_percent).sum

/-- ApexTrader.update_stats (main.py lines 71-85): refresh the daily
aggregates, then adjust consecutive_losses from the most recent trade
row (ORDER BY timestamp DESC LIMIT 1 = the last appended row) only if
that row is CLOSED. -/
noncomputable def update_stats (b : BotState) : BotState :=
  let base := { b with stats := { b.stats with
    trades_today := dailyTotalTrades b.trader.ledger
    daily_pnl := dailyPnl b.trader.ledger } }
  match b.trader.ledger.getLast? with
  | none => base
  | some last_trade =>
    if last_trade.status = .CLOSED then
      if last_trade.profit_percent.getD 0 < 0 then
        { base with stats := { base.stats with
            consecutive_losses := base.stats.consecutive_losses + 1 } }
      else
        { base with stats := { base.stats with consecutive_losses := 0 } }
    else base

/-- ApexTrader.check_daily_limits (main.py lines 48-69): False blocks
trading; the consecutive-loss branch sleeps for the cooldown, resets
the counter to 0 and allows trading. -/
noncomputable def check_daily_limits (b : BotState) : Bool × BotState :=
  if MAX_TRADES_PER_DAY ≤ dailyTotalTrades b.trader.ledger then (false, b)
  else if dailyPnl b.trader.ledger ≤ -(MAX_DAILY_LOSS_PERCENT : ℝ) then (false, b)
  else if MAX_CONSECUTIVE_LOSSES ≤ b.stats.consecutive_losses then
    (true, { b with stats := { b.stats with consecutive_losses := 0 } })
  else (true, b)

/-- Environment of one iteration of the run loop: the monitoring tick
data, the scan outcome (get_best_opportunity, already `none` when no
score reaches the threshold), and the entry environment. -/
structure IterEnv where
  tick : TickEnv
  opportunity : Option Opportunity
  enter : EnterEnv

/-- One iteration of the while loop of ApexTrader.run (main.py lines
135-177): with an open position, one monitoring tick and nothing else;
otherwise the governor check, then scan and maybe enter, and
update_stats only after a successful entry (lines 162-165). -/
noncomputable def run_iteration (b : BotState) (env : IterEnv) : BotState :=
  if b.trader.current_position.isSome then
    { b with trader := (monitor_position b.trader env.tick).1 }
  else
    let checked := check_daily_limits b
    if !checked.1 then checked.2 else
    match env.opportunity with
    | none => checked.2
    | some opp =>
      let entered := enter_trade checked.2.trader opp env.enter
      let b2 := { checked.2 with trader := entered.1 }
      if entered.2 then update_stats b2 else b2


/-! ### Concrete scenario inputs used by the claim evaluations -/

def macdBump : List ℚ := List.replicate 26 100 ++ [101]

def flat60 : List ℚ := List.replicate 60 100

def badWeights : Weights := ⟨0, 101/100, 0, 0, 0⟩

def bigStats : Stats24h := ⟨199000000⟩

def ph20 : List ℝ := List.replicate 20 1

noncomputable def c7Pos : Position := ⟨1, "XUSDT", 100, 5, 8, 103, 98⟩

noncomputable def c7Rec : TradeRec := ⟨1, "XUSDT", 100, 5, .OPEN, none, none, none, 8⟩

noncomputable def c7State : TraderState := ⟨some c7Pos, some 0, 98, 103, false, 100, [c7Rec]⟩

def c7Env : ExitEnv := ⟨none⟩

noncomputable def c2Pos : Position := ⟨1, "XUSDT", 100, 5, 8, 103, 98⟩

noncomputable def c2Rec : TradeRec := ⟨1, "XUSDT", 100, 5, .OPEN, none, none, none, 8⟩

noncomputable def c2State : TraderState := ⟨some c2Pos, some 0, 98, 103, false, 100, [c2Rec]⟩

noncomputable def c2Opp : Opportunity := ⟨"YUSDT", 100, 9, []⟩

noncomputable def c2Env : EnterEnv := ⟨1000, some ⟨101, 94/10⟩, 50⟩

noncomputable def c1Pos : Position := ⟨1, "XUSDT", 100, 5, 8, 103, 98⟩

noncomputable def c1Rec : TradeRec := ⟨1, "XUSDT", 100, 5, .OPEN, none, none, none, 8⟩

noncomputable def c1S0 : TraderState := ⟨some c1Pos, some 0, 98, 103, false, 100, [c1Rec]⟩

noncomputable def c1Env1 : TickEnv := ⟨some 102, 10, ⟨none⟩⟩

noncomputable def c1Env2 : TickEnv := ⟨some (201/2), 20, ⟨none⟩⟩

noncomputable def c1S1 : TraderState := (monitor_position c1S0 c1Env1).1

noncomputable def c3Pos : Position := ⟨1, "XUSDT", 100, 5, 8, 103, 98⟩

noncomputable def c3Rec : TradeRec := ⟨1, "XUSDT", 100, 5, .OPEN, none, none, none, 8⟩

noncomputable def c3Trader : TraderState := ⟨some c3Pos, some 0, 98, 103, false, 100, [c3Rec]⟩

noncomputable def c3Bot : BotState := ⟨c3Trader, ⟨0, 0, 0⟩⟩

noncomputable def c3Env : IterEnv := ⟨⟨some 97, 10, ⟨some ⟨97, 5⟩⟩⟩, none, ⟨0, none, 0⟩⟩

noncomputable def c3Bot1 : BotState := run_iteration c3Bot c3Env

noncomputable def c3RecClosed : TradeRec :=
  ⟨1, "XUSDT", 100, 5, .CLOSED, some 97, some (-3), some "STOP_LOSS_DYNAMIC", 8⟩

noncomputable def c10Pos : Position := ⟨1, "XUSDT", 100, 5, 8, 103, 98⟩

noncomputable def c10Rec : TradeRec := ⟨1, "XUSDT", 100, 5, .OPEN, none, none, none, 8⟩

noncomputable def c10S : TraderState := ⟨some c10Pos, some 0, 98, 103, false, 100, [c10Rec]⟩

noncomputable def c10Tick : TickEnv := ⟨some 101, 10, ⟨none⟩⟩

noncomputable def c2Bot : BotState := ⟨c2State, ⟨0, 0, 0⟩⟩

noncomputable def c2IterEnv : IterEnv := ⟨⟨none, 1, ⟨none⟩⟩, none, ⟨0, none, 0⟩⟩

/-! ### Supporting lemmas and claim theorems -/

theorem ewmAux_length (a e : ℚ) (l : List ℚ) : (ewmAux a e l).length = l.length := by
  induction l generalizing e with
  | nil => rfl
  | cons p ps ih => simp [ewmAux, ih]

theorem ewmList_length (a : ℚ) (l : List ℚ) : (ewmList a l).length = l.length := by
  cases l with
  | nil => rfl
  | cons p ps => simp [ewmList, ewmAux_length]

theorem macdHist_length (p : List ℚ) : (macdLines p).2.2.length = p.length := by
  simp [macdLines, ewmSpan, ewmList_length]

theorem ewmAux_replicate (a c : ℚ) (n : ℕ) :
    ewmAux a c (List.replicate n c) = List.replicate n c := by
  induction n with
  | zero => rfl
  | succ m ih =>
    rw [List.replicate_succ, ewmAux]
    have he : (1 - a) * c + a * c = c := by ring
    simp only [he, ih]

theorem ewmAux_replicate_concat (a c d : ℚ) (n : ℕ) :
    ewmAux a c (List.replicate n c ++ [d]) =
      List.replicate n c ++ [(1 - a) * c + a * d] := by
  induction n with
  | zero => simp [ewmAux]
  | succ m ih =>
    rw [List.replicate_succ, List.cons_append, ewmAux]
    have he : (1 - a) * c + a * c = c := by ring
    simp only [he, ih, List.replicate_succ, List.cons_append]

theorem ewmList_replicate (a c : ℚ) (n : ℕ) :
    ewmList a (List.replicate n c) = List.replicate n c := by
  cases n with
  | zero => rfl
  | succ m =>
    rw [List.replicate_succ, ewmList, ewmAux_replicate]

theorem ewmList_replicate_concat (a c d : ℚ) (n : ℕ) :
    ewmList a (List.replicate (n + 1) c ++ [d]) =
      List.replicate (n + 1) c ++ [(1 - a) * c + a * d] := by
  rw [List.replicate_succ, List.cons_append, ewmList, ewmAux_replicate_concat]
  simp

theorem zipWith_sub_replicate_concat (c c2 d d2 : ℚ) (n : ℕ) :
    List.zipWith (fun a b => a - b) (List.replicate n c ++ [d])
      (List.replicate n c2 ++ [d2]) = List.replicate n (c - c2) ++ [d - d2] := by
  induction n with
  | zero => rfl
  | succ m ih => simp only [List.replicate_succ, List.cons_append, List.zipWith_cons_cons, ih]

theorem macdLines_bump :
    macdLines macdBump = (List.replicate 26 0 ++ [28/351],
      List.replicate 26 0 ++ [28/1755], List.replicate 26 0 ++ [112/1755]) := by
  have hfast : ewmSpan MACD_FAST macdBump = List.replicate 26 100 ++ [1302/13] := by
    show ewmList (2 / ((12:ℚ) + 1)) (List.replicate (25+1) 100 ++ [101]) = _
    rw [ewmList_replicate_concat]
    norm_num
  have hslow : ewmSpan MACD_SLOW macdBump = List.replicate 26 100 ++ [2702/27] := by
    show ewmList (2 / ((26:ℚ) + 1)) (List.replicate (25+1) 100 ++ [101]) = _
    rw [ewmList_replicate_concat]
    norm_num
  have hsig : ewmSpan MACD_SIGNAL (List.replicate 26 0 ++ [28/351]) =
      List.replicate 26 0 ++ [28/1755] := by
    show ewmList (2 / ((9:ℚ) + 1)) (List.replicate (25+1) 0 ++ [28/351]) = _
    rw [ewmList_replicate_concat]
    norm_num
  simp only [macdLines, hfast, hslow, zipWith_sub_replicate_concat]
  norm_num [hsig, zipWith_sub_replicate_concat]

theorem macd_bump_eval :
    calculate_macd macdBump = ⟨28/351, 28/1755, 112/1755, false⟩ := by
  have hlen : macdBump.length = 27 := by simp [macdBump]
  rw [calculate_macd]
  rw [if_neg (by rw [hlen]; norm_num [MACD_SLOW] : ¬ macdBump.length < MACD_SLOW)]
  simp only [macdLines_bump]
  have h26 : (List.replicate 26 (0:ℚ) ++ [112/1755]).length = 27 := by simp
  have hel : (List.replicate 26 (0:ℚ) ++ [112/1755]).getD 25 0 = 0 := by
    rw [List.getD_append]
    · simp
    · simp
  rw [h26]
  norm_num [List.getLast?_concat, List.getElem_append_left, List.getElem_replicate]

/-- Claim C8 (amended): for every series long enough for MACD, the
crossover flag is true iff the histogram is strictly negative at the
second-to-last sample and strictly positive at the last. -/
theorem C8_macd_crossover_iff (prices : List ℚ) (h : MACD_SLOW ≤ prices.length) :
    (calculate_macd prices).crossover = true ↔
      ((macdLines prices).2.2.getD ((macdLines prices).2.2.length - 2) 0 < 0 ∧
        0 < (macdLines prices).2.2.getD ((macdLines prices).2.2.length - 1) 0) := by
  rw [calculate_macd, if_neg (by omega : ¬ prices.length < MACD_SLOW)]
  have h2 : 2 ≤ (macdLines prices).2.2.length := by
    rw [macdHist_length]
    have : (26:ℕ) ≤ prices.length := h
    omega
  simp only [if_pos h2, Bool.and_eq_true, decide_eq_true_eq]

theorem C8_counterexample :
    (calculate_macd macdBump).crossover = false ∧
    (macdLines macdBump).2.2.getD ((macdLines macdBump).2.2.length - 2) 0 ≤ 0 ∧
    0 < (macdLines macdBump).2.2.getD ((macdLines macdBump).2.2.length - 1) 0 := by
  refine ⟨by rw [macd_bump_eval], ?_, ?_⟩ <;>
  · rw [macdLines_bump]
    have h26 : (List.replicate 26 (0:ℚ) ++ [112/1755]).length = 27 := by simp
    rw [h26]
    norm_num [List.getElem_append_left, List.getElem_replicate]

theorem C8_macd_crossover_iff_witness :
    MACD_SLOW ≤ macdBump.length ∧
    ((calculate_macd macdBump).crossover = true ↔
      ((macdLines macdBump).2.2.getD ((macdLines macdBump).2.2.length - 2) 0 < 0 ∧
        0 < (macdLines macdBump).2.2.getD ((macdLines macdBump).2.2.length - 1) 0)) :=
  ⟨by simp [macdBump, MACD_SLOW],
    C8_macd_crossover_iff macdBump (by simp [macdBump, MACD_SLOW])⟩

/-- Claim C9 (amended): each indicator returns its neutral default on a
series shorter than its lookback, with the Bollinger function requiring
a nonempty series (prices[-1] raises IndexError on the empty list). -/
theorem C9_short_series_defaults :
    (∀ p : List ℝ, p ≠ [] → p.length < BB_PERIOD →
      ∃ b, calculate_bollinger_bands p = some b ∧ b.position = 1/2) ∧
    (∀ p : List ℚ, p.length < RSI_PERIOD + 1 → calculate_rsi p RSI_PERIOD = 50) ∧
    (∀ p : List ℚ, p.length < MACD_SLOW → calculate_macd p = ⟨0, 0, 0, false⟩) ∧
    (∀ p : List ℚ, p.length < 14 + 1 → calculate_stoch_rsi p = (50, 50)) ∧
    (∀ highs lows closes : List ℚ, closes.length < 14 + 1 →
      calculate_atr highs lows closes 14 = 0) := by
  refine ⟨?_, ?_, ?_, ?_, ?_⟩
  · intro p hne hlen
    rw [calculate_bollinger_bands, if_pos hlen]
    obtain ⟨c, hc⟩ := Option.isSome_iff_exists.1 (List.getLast?_isSome.2 hne)
    rw [hc]
    exact ⟨_, rfl, rfl⟩
  · intro p h
    rw [calculate_rsi, if_pos h]
  · intro p h
    rw [calculate_macd, if_pos h]
  · intro p h
    rw [calculate_stoch_rsi, if_pos h]
  · intro highs lows closes h
    rw [calculate_atr, if_pos h]

theorem C9_counterexample : calculate_bollinger_bands ([] : List ℝ) = none := by
  rw [calculate_bollinger_bands, if_pos (by norm_num [BB_PERIOD])]
  rfl

theorem C9_short_series_defaults_witness :
    (([100] : List ℝ) ≠ [] ∧ ([100] : List ℝ).length < BB_PERIOD ∧
      ∃ b, calculate_bollinger_bands [100] = some b ∧ b.position = 1/2) ∧
    (([42] : List ℚ).length < RSI_PERIOD + 1 ∧ calculate_rsi [42] RSI_PERIOD = 50) ∧
    (([] : List ℚ).length < MACD_SLOW ∧ calculate_macd [] = ⟨0, 0, 0, false⟩) ∧
    (([] : List ℚ).length < 14 + 1 ∧ calculate_stoch_rsi [] = (50, 50)) ∧
    (([] : List ℚ).length < 14 + 1 ∧ calculate_atr [] [] [] 14 = 0) :=
  ⟨⟨by simp, by norm_num [BB_PERIOD],
      C9_short_series_defaults.1 [100] (by simp) (by norm_num [BB_PERIOD])⟩,
    ⟨by norm_num [RSI_PERIOD], C9_short_series_defaults.2.1 [42] (by norm_num [RSI_PERIOD])⟩,
    ⟨by norm_num [MACD_SLOW], C9_short_series_defaults.2.2.1 [] (by norm_num [MACD_SLOW])⟩,
    ⟨by norm_num, C9_short_series_defaults.2.2.2.1 [] (by norm_num)⟩,
    ⟨by norm_num, C9_short_series_defaults.2.2.2.2 [] [] [] (by norm_num)⟩⟩

theorem rsi_score_of_range (r : ℚ) : 2 ≤ rsi_score_of r ∧ rsi_score_of r ≤ 10 := by
  rw [rsi_score_of]
  split_ifs <;> norm_num

theorem stoch_score_of_range (k d : ℚ) : 2 ≤ stoch_score_of k d ∧ stoch_score_of k d ≤ 10 := by
  rw [stoch_score_of]
  split_ifs <;> norm_num

theorem macd_score_of_range (m : MACDResult) : 2 ≤ macd_score_of m ∧ macd_score_of m ≤ 10 := by
  rw [macd_score_of]
  split_ifs <;> norm_num

theorem bb_score_of_range (p : List ℚ) : 2 ≤ bb_score_of p ∧ bb_score_of p ≤ 10 := by
  rw [bb_score_of]
  split_ifs <;> norm_num

theorem trend_score_of_range (t : Trend) (c e : ℚ) :
    2 ≤ trend_score_of t c e ∧ trend_score_of t c e ≤ 10 := by
  rw [trend_score_of]
  split_ifs <;> norm_num

theorem technical_score_range (p : List ℚ) :
    0 ≤ calculate_technical_score p ∧ calculate_technical_score p ≤ 10 := by
  rw [calculate_technical_score, get_technical_score]
  split_ifs with h
  · norm_num
  · obtain ⟨a1, a2⟩ := rsi_score_of_range (calculate_rsi p RSI_PERIOD)
    obtain ⟨b1, b2⟩ := stoch_score_of_range (calculate_stoch_rsi p).1 (calculate_stoch_rsi p).2
    obtain ⟨c1, c2⟩ := macd_score_of_range (calculate_macd p)
    obtain ⟨d1, d2⟩ := bb_score_of_range p
    obtain ⟨e1, e2⟩ := trend_score_of_range
      (if calculate_ema p 50 > calculate_ema p 200 then .BULLISH
        else if calculate_ema p 50 < calculate_ema p 200 then .BEARISH else .NEUTRAL)
      (p.getLast?.getD 0) (calculate_ema p 50)
    constructor <;> simp only <;> linarith

theorem volatility_score_range (p : List ℚ) :
    0 ≤ calculate_volatility_score p ∧ calculate_volatility_score p ≤ 10 := by
  simp only [calculate_volatility_score]
  split_ifs <;> norm_num

theorem volume_score_range (st : Option Stats24h) :
    0 ≤ calculate_volume_score st ∧ calculate_volume_score st ≤ 10 := by
  rcases st with _ | st
  · norm_num [calculate_volume_score]
  · simp only [calculate_volume_score]
    split_ifs <;> norm_num

theorem momentum_score_range (p : List ℚ) :
    0 ≤ calculate_momentum_score p ∧ calculate_momentum_score p ≤ 10 := by
  simp only [calculate_momentum_score]
  split_ifs <;> norm_num

theorem risk_score_range (symbol : String) (st : Option Stats24h) :
    0 ≤ calculate_risk_score symbol st ∧ calculate_risk_score symbol st ≤ 10 := by
  rw [calculate_risk_score]
  split_ifs <;> constructor <;> norm_num [min_def]

/-- Claim C5 (amended): all five sub-scores always lie in [0,10], and
the composite lies in [0,10] for every weight table with nonnegative
entries summing to at most 1 (the startup validation alone, which only
bounds the sum within 0.01 of 1, does not guarantee this). -/
theorem C5_scores_bounded (w : Weights) (symbol : String) (prices : List ℚ)
    (stats : Option Stats24h)
    (h1 : 0 ≤ w.volatility) (h2 : 0 ≤ w.volume) (h3 : 0 ≤ w.momentum)
    (h4 : 0 ≤ w.technical) (h5 : 0 ≤ w.risk) (hsum : w.sumW ≤ 1) :
    (0 ≤ composite_score w symbol prices stats ∧
      composite_score w symbol prices stats ≤ 10) ∧
    (0 ≤ calculate_volatility_score prices ∧ calculate_volatility_score prices ≤ 10) ∧
    (0 ≤ calculate_volume_score stats ∧ calculate_volume_score stats ≤ 10) ∧
    (0 ≤ calculate_momentum_score prices ∧ calculate_momentum_score prices ≤ 10) ∧
    (0 ≤ calculate_technical_score prices ∧ calculate_technical_score prices ≤ 10) ∧
    (0 ≤ calculate_risk_score symbol stats ∧ calculate_risk_score symbol stats ≤ 10) ∧
    (∀ c, scan_coin w symbol prices stats = some c →
      c.final_score = composite_score w symbol prices stats) := by
  obtain ⟨va, vb⟩ := volatility_score_range prices
  obtain ⟨ua, ub⟩ := volume_score_range stats
  obtain ⟨ma, mb⟩ := momentum_score_range prices
  obtain ⟨ta, tb⟩ := technical_score_range prices
  obtain ⟨ra, rb⟩ := risk_score_range symbol stats
  simp only [Weights.sumW] at hsum
  refine ⟨⟨?_, ?_⟩, ⟨va, vb⟩, ⟨ua, ub⟩, ⟨ma, mb⟩, ⟨ta, tb⟩, ⟨ra, rb⟩, ?_⟩
  · rw [composite_score]
    have := mul_nonneg va h1
    have := mul_nonneg ua h2
    have := mul_nonneg ma h3
    have := mul_nonneg ta h4
    have := mul_nonneg ra h5
    linarith
  · rw [composite_score]
    have := mul_le_mul_of_nonneg_right vb h1
    have := mul_le_mul_of_nonneg_right ub h2
    have := mul_le_mul_of_nonneg_right mb h3
    have := mul_le_mul_of_nonneg_right tb h4
    have := mul_le_mul_of_nonneg_right rb h5
    nlinarith
  · intro c hc
    rcases stats with _ | st
    · simp [scan_coin] at hc
    · by_cases hg : (prices = [] ∨ prices.length < 60)
      · simp only [scan_coin, if_pos hg] at hc
        cases hc
      · simp only [scan_coin, if_neg hg, Option.some.injEq] at hc
        rw [← hc]

theorem C5_counterexample :
    weightsAccepted badWeights = true ∧
    (scan_coin badWeights "AAAUSDT" flat60 (some bigStats)).map Coin.final_score =
      some (101/10) ∧
    ¬ ((101:ℚ)/10 ≤ 10) := by
  refine ⟨?_, ?_, by norm_num⟩
  · simp only [weightsAccepted, badWeights, Weights.sumW, decide_eq_true_eq]
    rw [abs_le]
    norm_num
  · have hg : ¬ (flat60 = [] ∨ flat60.length < 60) := by simp [flat60]
    simp only [scan_coin, if_neg hg, Option.map_some]
    have hvol : calculate_volume_score (some bigStats) = 10 := by
      rw [calculate_volume_score, if_pos (by norm_num [bigStats])]
    rw [composite_score]
    rw [hvol]
    simp only [badWeights]
    ring_nf
    simp

theorem C5_scores_bounded_witness :
    (0 ≤ defaultWeights.volatility ∧ 0 ≤ defaultWeights.volume ∧
      0 ≤ defaultWeights.momentum ∧ 0 ≤ defaultWeights.technical ∧
      0 ≤ defaultWeights.risk ∧ defaultWeights.sumW ≤ 1) ∧
    (0 ≤ composite_score defaultWeights "BTCUSDT" flat60 (some bigStats) ∧
      composite_score defaultWeights "BTCUSDT" flat60 (some bigStats) ≤ 10) :=
  ⟨⟨by norm_num [defaultWeights], by norm_num [defaultWeights],
    by norm_num [defaultWeights], by norm_num [defaultWeights],
    by norm_num [defaultWeights], by norm_num [defaultWeights, Weights.sumW]⟩,
    (C5_scores_bounded defaultWeights "BTCUSDT" flat60 (some bigStats)
      (by norm_num [defaultWeights]) (by norm_num [defaultWeights])
      (by norm_num [defaultWeights]) (by norm_num [defaultWeights])
      (by norm_num [defaultWeights]) (by norm_num [defaultWeights, Weights.sumW])).1⟩

/-- Claim C4: for histories of at least the ATR lookback length, the
targets are takeProfit = entry + 3 ATR and stopLoss = the clamp of
entry - 2 ATR between entry*0.98 and entry*0.997; in particular entry
100 with ATR 1 gives (103, 98). -/
theorem C4_atr_targets :
    (∀ (entry : ℝ) (ph : List ℝ), 20 ≤ ph.length → 0 < entry →
      calculate_atr_targets entry ph =
        (entry + 3 * atrApprox entry ph,
          max (entry * (98/100))
            (min (entry - 2 * atrApprox entry ph) (entry * (997/1000))))) ∧
    atrTargetsFromAtr 100 1 = (103, 98) := by
  constructor
  · intro entry ph h20 hpos
    have hne : ¬ (ph = [] ∨ ph.length < 20) := by
      rintro (rfl | hl)
      · simp at h20
      · omega
    simp only [calculate_atr_targets, if_neg hne, atrTargetsFromAtr]
  · simp only [atrTargetsFromAtr]
    norm_num

theorem C4_atr_targets_witness :
    20 ≤ ph20.length ∧ (0:ℝ) < 100 ∧
    calculate_atr_targets 100 ph20 =
      (100 + 3 * atrApprox 100 ph20,
        max ((100:ℝ) * (98/100))
          (min (100 - 2 * atrApprox 100 ph20) (100 * (997/1000)))) :=
  ⟨by simp [ph20], by norm_num,
    C4_atr_targets.1 100 ph20 (by simp [ph20]) (by norm_num)⟩

theorem scoreDesc_trans : ∀ a b c : Coin,
    scoreDesc a b = true → scoreDesc b c = true → scoreDesc a c = true := by
  intro a b c
  simp only [scoreDesc, decide_eq_true_eq]
  exact fun h1 h2 => le_trans h2 h1

theorem scoreDesc_total : ∀ a b : Coin, (scoreDesc a b || scoreDesc b a) = true := by
  intro a b
  simp only [scoreDesc, Bool.or_eq_true, decide_eq_true_eq]
  exact le_total _ _

theorem mergeSort_head_max (l : List Coin) (best : Coin) (rest : List Coin)
    (h : l.mergeSort scoreDesc = best :: rest) :
    ∀ c ∈ l, c.final_score ≤ best.final_score := by
  intro c hc
  have hmem : c ∈ l.mergeSort scoreDesc := (List.mergeSort_perm l scoreDesc).mem_iff.2 hc
  have hs := @List.sorted_mergeSort Coin scoreDesc scoreDesc_trans scoreDesc_total l
  rw [h] at hs hmem
  rcases List.mem_cons.1 hmem with rfl | hmem2
  · exact le_refl _
  · have := (List.pairwise_cons.1 hs).1 c hmem2
    simpa [scoreDesc, decide_eq_true_eq] using this

theorem scan_all_head_max (w : Weights) (t : Option (List Ticker))
    (ep : String → List ℚ) (es : String → Option Stats24h) (best : Coin) (rest : List Coin)
    (h : scan_all_coins w t ep es = best :: rest) :
    ∀ c ∈ scan_all_coins w t ep es, c.final_score ≤ best.final_score := by
  intro c hc
  simp only [scan_all_coins] at h hc
  by_cases htop : get_top_coins t TOP_N_COINS = []
  · rw [if_pos htop] at h
    cases h
  · rw [if_neg htop] at h hc
    exact mergeSort_head_max _ best rest h c ((List.mergeSort_perm _ scoreDesc).mem_iff.1 hc)

/-- Claim C6: the scan returns the top-scored instrument iff at least
one instrument scored and the top score reaches the threshold; a failed
universe fetch (tickers = none) yields no opportunity; the functions are
total, so no exception can escape. -/
theorem C6_best_opportunity (w : Weights) (tickers : Option (List Ticker))
    (envPrices : String → List ℚ) (envStats : String → Option Stats24h) :
    (tickers = none → get_best_opportunity w tickers envPrices envStats = none) ∧
    (scan_all_coins w tickers envPrices envStats = [] →
      get_best_opportunity w tickers envPrices envStats = none) ∧
    (∀ b, get_best_opportunity w tickers envPrices envStats = some b →
      b ∈ scan_all_coins w tickers envPrices envStats ∧
      (∀ c ∈ scan_all_coins w tickers envPrices envStats,
        c.final_score ≤ b.final_score) ∧
      MIN_SCORE_TO_TRADE ≤ b.final_score) ∧
    (∀ b ∈ scan_all_coins w tickers envPrices envStats,
      (∀ c ∈ scan_all_coins w tickers envPrices envStats,
        c.final_score ≤ b.final_score) →
      MIN_SCORE_TO_TRADE ≤ b.final_score →
      ∃ b2, get_best_opportunity w tickers envPrices envStats = some b2 ∧
        b2.final_score = b.final_score) := by
  have hnil : scan_all_coins w tickers envPrices envStats = [] →
      get_best_opportunity w tickers envPrices envStats = none := by
    intro h
    unfold get_best_opportunity
    rw [h]
  have hcons : ∀ best rest, scan_all_coins w tickers envPrices envStats = best :: rest →
      get_best_opportunity w tickers envPrices envStats =
        if best.final_score < MIN_SCORE_TO_TRADE then none else some best := by
    intro best rest h
    unfold get_best_opportunity
    rw [h]
  refine ⟨?_, hnil, ?_, ?_⟩
  · intro ht
    subst ht
    exact hnil (by simp [scan_all_coins, get_top_coins])
  · intro b hb
    cases hscan : scan_all_coins w tickers envPrices envStats with
    | nil =>
      rw [hnil hscan] at hb
      cases hb
    | cons best rest =>
      rw [hcons best rest hscan] at hb
      by_cases hmin : best.final_score < MIN_SCORE_TO_TRADE
      · rw [if_pos hmin] at hb
        cases hb
      · rw [if_neg hmin] at hb
        obtain rfl : best = b := by
          simpa using hb
        refine ⟨List.mem_cons_self _ _, ?_, not_lt.1 hmin⟩
        rw [← hscan]
        exact scan_all_head_max w tickers envPrices envStats best rest hscan
  · intro b hb hmax hmin
    cases hscan : scan_all_coins w tickers envPrices envStats with
    | nil =>
      rw [hscan] at hb
      cases hb
    | cons best rest =>
      have h1 : best.final_score ≤ b.final_score :=
        hmax best (by rw [hscan]; exact List.mem_cons_self _ _)
      have h2 : b.final_score ≤ best.final_score :=
        scan_all_head_max w tickers envPrices envStats best rest hscan b hb
      have heq : best.final_score = b.final_score := le_antisymm h1 h2
      refine ⟨best, ?_, heq⟩
      rw [hcons best rest hscan, if_neg (by rw [heq]; exact not_lt.2 hmin)]

theorem C6_best_opportunity_witness :
    get_best_opportunity defaultWeights none (fun _ => []) (fun _ => none) = none :=
  (C6_best_opportunity defaultWeights none (fun _ => []) (fun _ => none)).1 rfl

/-- Claim C7: a failed sell order leaves the trader state (position,
risk fields, ledger) exactly unchanged and reports failure. -/
theorem C7_failed_exit_preserves_state (s : TraderState) (pos : Position)
    (reason : String) (env : ExitEnv)
    (hpos : s.current_position = some pos) (hfail : env.sellOrder = none) :
    exit_trade s reason env = (s, false) := by
  simp only [exit_trade, hpos, hfail]

theorem C7_failed_exit_preserves_state_witness :
    c7State.current_position = some c7Pos ∧ c7Env.sellOrder = none ∧
    exit_trade c7State "STOP_LOSS_DYNAMIC" c7Env = (c7State, false) :=
  ⟨rfl, rfl, C7_failed_exit_preserves_state c7State c7Pos "STOP_LOSS_DYNAMIC" c7Env rfl rfl⟩

/-- Claim C2 (amended): the run loop never attempts an entry while a
Position is open: with an open position an iteration is exactly one
monitoring tick. -/
theorem C2_no_entry_while_open (b : BotState) (env : IterEnv)
    (h : b.trader.current_position.isSome = true) :
    run_iteration b env = { b with trader := (monitor_position b.trader env.tick).1 } := by
  rw [run_iteration, if_pos h]

theorem C2_no_entry_while_open_witness :
    c2Bot.trader.current_position.isSome = true ∧
    run_iteration c2Bot c2IterEnv =
      { c2Bot with trader := (monitor_position c2Bot.trader c2IterEnv.tick).1 } :=
  ⟨rfl, C2_no_entry_while_open c2Bot c2IterEnv rfl⟩

theorem c2_quantity_eval : calculate_quantity 100 950 = 19/2 := by
  have h1 : (950:ℝ) / 100 * 10 ^ 5 = 950000 := by norm_num
  have h2 : roundHalfEven 950000 = 950000 := by
    rw [roundHalfEven]
    norm_num
  rw [calculate_quantity, pyRound, h1, h2]
  norm_num

theorem C2_counterexample :
    c2State.current_position = some c2Pos ∧
    (enter_trade c2State c2Opp c2Env).2 = true ∧
    (enter_trade c2State c2Opp c2Env).1.current_position.map Position.trade_id = some 2 ∧
    c2Pos.trade_id = 1 ∧
    (enter_trade c2State c2Opp c2Env).1.ledger.length = 2 ∧
    c2State.ledger.length = 1 := by
  have henter : enter_trade c2State c2Opp c2Env =
      (⟨some ⟨2, "YUSDT", 101, 94/10, 9, 101 * (1 + (TAKE_PROFIT_PERCENT:ℝ)/100),
          101 * (1 - (STOP_LOSS_PERCENT:ℝ)/100)⟩,
        some 50, 101 * (1 - (STOP_LOSS_PERCENT:ℝ)/100),
        101 * (1 + (TAKE_PROFIT_PERCENT:ℝ)/100), false, 101,
        [c2Rec, ⟨2, "YUSDT", 101, 94/10, .OPEN, none, none, none, 9⟩]⟩, true) := by
    rw [enter_trade]
    rw [if_neg (by norm_num [c2Env, CAPITAL_PER_TRADE] :
      ¬ c2Env.balance * (CAPITAL_PER_TRADE:ℝ) < 10)]
    have hq : calculate_quantity c2Opp.current_price (c2Env.balance * (CAPITAL_PER_TRADE:ℝ)) =
        19/2 := by
      have : c2Env.balance * (CAPITAL_PER_TRADE:ℝ) = 950 := by
        norm_num [c2Env, CAPITAL_PER_TRADE]
      rw [this]
      exact c2_quantity_eval
    rw [if_neg (by rw [hq]; norm_num)]
    simp only [c2Env, c2Opp, c2State, calculate_atr_targets, log_trade_entry]
    norm_num [c2Rec]
  rw [henter]
  refine ⟨rfl, rfl, rfl, rfl, rfl, rfl⟩

theorem c1S1_eval : c1S1 = ⟨some c1Pos, some 0, 98, 103, true, 102, [c1Rec]⟩ := by
  rw [c1S1]
  rw [show monitor_position c1S0 c1Env1 =
      (⟨some c1Pos, some 0, 98, 103, true, 102, [c1Rec]⟩, true) from ?_]
  · simp only [monitor_position, c1S0, c1Env1, tickEffectiveStop, tickProfitPercent,
      tickHighest, c1Pos, MAX_TRADE_DURATION]
    norm_num

/-- Claim C1 (code defect): the tick at price 102 activates trailing and
compares against the raised stop 101.49, but the raise is never stored;
the next tick at 100.5 (profit 0.5 percent) compares against the
original 98 again, the effective stop regresses, and the position stays
open although 100.5 is below the previous trailing level. -/
theorem C1_trailing_stop_regression :
    c1S1.trailing_stop_active = true ∧
    c1S1.current_position = some c1Pos ∧
    tickEffectiveStop c1S0 100 102 = 10149/100 ∧
    tickEffectiveStop c1S1 100 (201/2) = 98 ∧
    (monitor_position c1S1 c1Env2).1.current_position = some c1Pos ∧
    ((201:ℝ)/2) < 10149/100 := by
  refine ⟨by rw [c1S1_eval], by rw [c1S1_eval], ?_, ?_, ?_, by norm_num⟩
  · simp only [tickEffectiveStop, tickProfitPercent, tickHighest, c1S0]
    norm_num
  · rw [c1S1_eval]
    simp only [tickEffectiveStop, tickProfitPercent, tickHighest]
    norm_num
  · rw [c1S1_eval]
    simp only [monitor_position, c1Env2, tickEffectiveStop, tickProfitPercent,
      tickHighest, c1Pos, MAX_TRADE_DURATION]
    norm_num

theorem c3Bot1_eval :
    c3Bot1 = ⟨⟨none, none, 98, 103, false, 0, [c3RecClosed]⟩, ⟨0, 0, 0⟩⟩ := by
  rw [c3Bot1, run_iteration, if_pos (by rw [c3Bot]; rfl)]
  rw [show (monitor_position c3Bot.trader c3Env.tick).1 =
      ⟨none, none, 98, 103, false, 0, [c3RecClosed]⟩ from ?_]
  · rw [c3Bot]
  · simp only [monitor_position, c3Bot, c3Trader, c3Env, c3Pos, exit_trade,
      log_trade_exit, tickEffectiveStop, tickProfitPercent, tickHighest,
      MAX_TRADE_DURATION, c3Rec, c3RecClosed]
    norm_num

/-- Claim C3 (code defect): a stop-loss close with P&L -3 percent leaves
consecutive_losses at 0 for the next governor check (update_stats is not
called on the monitoring path), although update_stats applied to the
resulting state would compute 1 as the claim requires. -/
theorem C3_loss_counter_not_updated :
    c3Bot1.stats.consecutive_losses = 0 ∧
    c3Bot1.trader.ledger.getLast?.map TradeRec.status = some .CLOSED ∧
    c3Bot1.trader.ledger.getLast?.bind TradeRec.profit_percent = some (-3) ∧
    (update_stats c3Bot1).stats.consecutive_losses = 1 := by
  refine ⟨by rw [c3Bot1_eval], by rw [c3Bot1_eval]; rfl, by rw [c3Bot1_eval]; rfl, ?_⟩
  rw [c3Bot1_eval]
  simp only [update_stats, c3RecClosed]
  norm_num

theorem tickHighest_ge (s : TraderState) (p : ℝ) : s.highest_price ≤ tickHighest s p := by
  rw [tickHighest]
  split_ifs with h
  · exact le_of_lt h
  · exact le_refl _

/-- Claim C10: the high-water mark never decreases across a monitoring
tick that keeps the position, stays at or above the entry fill price,
is initialized to the fill price at entry, and is reset (to 0) only by
a tick whose sell order succeeded. -/
theorem C10_high_water_mark :
    (∀ (s : TraderState) (pos : Position) (env : TickEnv),
      s.current_position = some pos →
      (((monitor_position s env).1.current_position).isSome = true →
        s.highest_price ≤ (monitor_position s env).1.highest_price ∧
        (pos.entry_price ≤ s.highest_price →
          pos.entry_price ≤ (monitor_position s env).1.highest_price)) ∧
      ((monitor_position s env).1.current_position = none →
        (monitor_position s env).1.highest_price = 0 ∧
        env.exitEnv.sellOrder.isSome = true ∧ (monitor_position s env).2 = true)) ∧
    (∀ (s : TraderState) (opp : Opportunity) (env : EnterEnv) (s2 : TraderState),
      enter_trade s opp env = (s2, true) →
      s2.current_position.map Position.entry_price = some s2.highest_price) ∧
    (∀ (s : TraderState) (reason : String) (env : ExitEnv) (s2 : TraderState) (ok : Bool),
      s.current_position.isSome = true → exit_trade s reason env = (s2, ok) →
      s2.current_position = none →
      s2.highest_price = 0 ∧ ok = true ∧ env.sellOrder.isSome = true) := by
  refine ⟨?_, ?_, ?_⟩
  · intro s pos env hpos
    rcases henv : env.price with _ | p
    · constructor
      · intro _
        simp only [monitor_position, hpos, henv]
        exact ⟨le_refl _, fun h => h⟩
      · intro hnone
        simp only [monitor_position, hpos, henv] at hnone
        simp at hnone
    · rcases hsell : env.exitEnv.sellOrder with _ | ord
      · constructor
        · simp only [monitor_position, hpos, henv, exit_trade, hsell]
          split_ifs <;> intro hs <;>
            exact ⟨tickHighest_ge s p, fun h => le_trans h (tickHighest_ge s p)⟩
        · simp only [monitor_position, hpos, henv, exit_trade, hsell]
          split_ifs <;> intro hnone <;> simp at hnone
      · constructor
        · simp only [monitor_position, hpos, henv, exit_trade, hsell]
          split_ifs <;> intro hs <;>
            first
            | exact ⟨tickHighest_ge s p, fun h => le_trans h (tickHighest_ge s p)⟩
            | simp at hs
        · simp only [monitor_position, hpos, henv, exit_trade, hsell]
          split_ifs <;> intro hnone <;>
            first
            | exact ⟨rfl, rfl, rfl⟩
            | simp at hnone
  · intro s opp env s2 h
    by_cases h1 : env.balance * (CAPITAL_PER_TRADE:ℝ) < 10
    · rw [enter_trade, if_pos h1] at h
      simp at h
    · by_cases h2 : calculate_quantity opp.current_price
        (env.balance * (CAPITAL_PER_TRADE:ℝ)) = 0
      · rw [enter_trade, if_neg h1, if_pos h2] at h
        simp at h
      · rcases horder : env.buyOrder with _ | ord
        · rw [enter_trade, if_neg h1, if_neg h2, horder] at h
          simp at h
        · rw [enter_trade, if_neg h1, if_neg h2, horder] at h
          injection h with h3 h4
          rw [← h3]
          rfl
  · intro s reason env s2 ok hs h hnone
    rcases hpos : s.current_position with _ | pos
    · rw [hpos] at hs
      cases hs
    · rcases hsell : env.sellOrder with _ | ord
      · simp only [exit_trade, hpos, hsell] at h
        injection h with h1 h2
        rw [← h1] at hnone
        rw [hpos] at hnone
        cases hnone
      · simp only [exit_trade, hpos, hsell] at h
        injection h with h1 h2
        refine ⟨by rw [← h1], by rw [← h2], rfl⟩


theorem c10_monitor_eval : (monitor_position c10S c10Tick).1 =
    ⟨some c10Pos, some 0, 98, 103, false, 101, [c10Rec]⟩ := by
  rw [show monitor_position c10S c10Tick =
      (⟨some c10Pos, some 0, 98, 103, false, 101, [c10Rec]⟩, true) from ?_]
  · simp only [monitor_position, c10S, c10Tick, tickEffectiveStop, tickProfitPercent,
      tickHighest, c10Pos, MAX_TRADE_DURATION]
    norm_num

theorem C10_high_water_mark_witness :
    c10S.current_position = some c10Pos ∧
    ((monitor_position c10S c10Tick).1.current_position).isSome = true ∧
    c10S.highest_price ≤ (monitor_position c10S c10Tick).1.highest_price ∧
    c10Pos.entry_price ≤ (monitor_position c10S c10Tick).1.highest_price :=
  ⟨rfl, by rw [c10_monitor_eval]; rfl,
    ((C10_high_water_mark.1 c10S c10Pos c10Tick rfl).1
      (by rw [c10_monitor_eval]; rfl)).1,
    ((C10_high_water_mark.1 c10S c10Pos c10Tick rfl).1
      (by rw [c10_monitor_eval]; rfl)).2 (by rw [c10S]; norm_num [c10Pos])⟩
